import Mathlib

/-
Verification of the environment-configuration module
`frontend/src/environments/environment.ts`.

The module is a single TypeScript declaration

  export const environment = {
    production: false,
    apiServerUrl: 'http://127.0.0.1:5000',
    auth0: {
      url: 'udacity2020.eu',
      audience: 'coffee_shop_api',
      clientId: 'XzfZoHMGLBsS6YoHQq9MJYu56QwhA49o',
      callbackURL: 'http://127.0.0.1:8100/callback',
    }
  };

We embed the relevant fragment of the TypeScript expression language
shallowly: runtime values are strings, booleans and objects (the only
value forms this module produces), and expressions are literals, object
literals, variable references, conditionals, `throw` and `try`/`catch`
(the constructs whose absence the specification asserts).  The module
itself is embedded as the object-literal expression `environmentExpr`,
and its list of exported bindings as `moduleExports`.
-/

namespace CoffeeShopEnv

/-- Runtime values of the embedded fragment: strings, booleans, and
objects given as ordered key/value field lists. -/
inductive Value where
  | str (s : String)
  | bool (b : Bool)
  | obj (fields : List (String × Value))

/-- A value is a scalar when it is a string or a boolean, i.e. not an
object. -/
def Value.isScalar : Value → Bool
  | Value.obj _ => false
  | _ => true

/-- A value is a string scalar. -/
def Value.isStr : Value → Bool
  | Value.str _ => true
  | _ => false

/-- Expressions of the embedded TypeScript fragment.  The source module
uses only `lit` and `objE`; the remaining constructors (variable
reference, conditional, `throw`, `try`/`catch`) are the control-flow and
failure-handling forms whose absence from the module the specification
claims, so the predicates below are stated over a language in which they
could occur. -/
inductive Expr where
  | lit (v : Value)
  | objE (fields : List (String × Expr))
  | var (name : String)
  | cond (c t e : Expr)
  | throw (msg : String)
  | tryCatch (body handler : Expr)

/-- An evaluation context: the values of the free variables an
expression might reference. -/
def Ctx : Type := String → Option Value

/-- Fueled evaluator for the embedded fragment.  Object literals
evaluate their fields left to right; a conditional requires a boolean
scrutinee; `throw` produces an error; `try`/`catch` recovers from an
error of its body by running the handler.  The fuel argument only bounds
the recursion depth; it exceeds the depth of every expression in this
development, so it is never exhausted below. -/
def evalF : Nat → Ctx → Expr → Except String Value
  | 0, _, _ => Except.error "fuel exhausted"
  | Nat.succ n, ctx, e =>
    match e with
    | Expr.lit v => Except.ok v
    | Expr.objE fs =>
        (fs.mapM (fun kv => (evalF n ctx kv.2).map (fun v => (kv.1, v)))).map Value.obj
    | Expr.var x =>
        match ctx x with
        | some v => Except.ok v
        | none => Except.error ("unbound variable: " ++ x)
    | Expr.cond c t e =>
        match evalF n ctx c with
        | Except.ok (Value.bool true) => evalF n ctx t
        | Except.ok (Value.bool false) => evalF n ctx e
        | Except.ok _ => Except.error "condition is not a boolean"
        | Except.error m => Except.error m
    | Expr.throw m => Except.error m
    | Expr.tryCatch b h =>
        match evalF n ctx b with
        | Except.ok v => Except.ok v
        | Except.error _ => evalF n ctx h

/-- Evaluation of a module-level expression; fuel 100 far exceeds the
nesting depth (3) of the embedded module. -/
def eval (ctx : Ctx) (e : Expr) : Except String Value := evalF 100 ctx e

/-- Fueled check: does the expression contain a control-flow construct
(a conditional)?  At fuel 0 it conservatively answers `true`. -/
def hasControlFlowF : Nat → Expr → Bool
  | 0, _ => true
  | Nat.succ n, e =>
    match e with
    | Expr.lit _ => false
    | Expr.objE fs => fs.any (fun kv => hasControlFlowF n kv.2)
    | Expr.var _ => false
    | Expr.cond _ _ _ => true
    | Expr.throw _ => false
    | Expr.tryCatch b h => hasControlFlowF n b || hasControlFlowF n h

/-- Does the expression contain a conditional anywhere? -/
def hasControlFlow (e : Expr) : Bool := hasControlFlowF 100 e

/-- Fueled check: does the expression contain a failure-handling
construct (`try`/`catch`, the fragment's recovery form)?  At fuel 0 it
conservatively answers `true`. -/
def hasFailureHandlingF : Nat → Expr → Bool
  | 0, _ => true
  | Nat.succ n, e =>
    match e with
    | Expr.lit _ => false
    | Expr.objE fs => fs.any (fun kv => hasFailureHandlingF n kv.2)
    | Expr.var _ => false
    | Expr.cond c t f =>
        hasFailureHandlingF n c || hasFailureHandlingF n t || hasFailureHandlingF n f
    | Expr.throw _ => false
    | Expr.tryCatch _ _ => true

/-- Does the expression contain a `try`/`catch` anywhere? -/
def hasFailureHandling (e : Expr) : Bool := hasFailureHandlingF 100 e

/-- Fueled check: does the expression contain a `throw` (an error
branch)?  At fuel 0 it conservatively answers `true`. -/
def usesThrowF : Nat → Expr → Bool
  | 0, _ => true
  | Nat.succ n, e =>
    match e with
    | Expr.lit _ => false
    | Expr.objE fs => fs.any (fun kv => usesThrowF n kv.2)
    | Expr.var _ => false
    | Expr.cond c t f => usesThrowF n c || usesThrowF n t || usesThrowF n f
    | Expr.throw _ => true
    | Expr.tryCatch b h => usesThrowF n b || usesThrowF n h

/-- Does the expression contain a `throw` anywhere? -/
def usesThrow (e : Expr) : Bool := usesThrowF 100 e

/-- Fueled check: is the expression static data, i.e. built from
literals and object literals only (no variable references, no
conditionals, no `throw`, no `try`/`catch`)?  At fuel 0 it
conservatively answers `false`. -/
def isStaticDataF : Nat → Expr → Bool
  | 0, _ => false
  | Nat.succ n, e =>
    match e with
    | Expr.lit _ => true
    | Expr.objE fs => fs.all (fun kv => isStaticDataF n kv.2)
    | _ => false

/-- Is the expression built from literals and object literals only? -/
def isStaticData (e : Expr) : Bool := isStaticDataF 100 e

/-- The fields of an object value (a scalar has none). -/
def topFields : Value → List (String × Value)
  | Value.obj fs => fs
  | _ => []

/-- Field lookup on an object value. -/
def lookupField (v : Value) (k : String) : Option Value :=
  (topFields v).find? (fun kv => kv.1 == k) |>.map Prod.snd

/-- Fueled flattening of a value to its scalar leaves, each paired with
the key under which it is stored.  The fuel bounds the nesting depth and
exceeds the depth of every value in this development. -/
def scalarLeavesF : Nat → String → Value → List (String × Value)
  | 0, k, v => [(k, v)]
  | Nat.succ n, k, v =>
    match v with
    | Value.obj fs => fs.flatMap (fun kv => scalarLeavesF n kv.1 kv.2)
    | w => [(k, w)]

/-- The scalar leaves of a value, keyed by their immediate field name. -/
def leavesOf (v : Value) : List (String × Value) := scalarLeavesF 100 "root" v

/-- A leaf is a non-empty string or a non-string scalar. -/
def stringLeafNonEmpty : String × Value → Bool
  | (_, Value.str s) => !s.isEmpty
  | _ => true

/-- Embedding of the `auth0` object literal (source lines 8 to 13):
domain prefix, audience, client id, callback URL, all string literals. -/
def auth0Expr : Expr :=
  Expr.objE [
    ("url", Expr.lit (Value.str "udacity2020.eu")),
    ("audience", Expr.lit (Value.str "coffee_shop_api")),
    ("clientId", Expr.lit (Value.str "XzfZoHMGLBsS6YoHQq9MJYu56QwhA49o")),
    ("callbackURL", Expr.lit (Value.str "http://127.0.0.1:8100/callback"))
  ]

/-- Embedding of the `environment` object literal (source lines 5 to
14): a boolean `production` flag, the string `apiServerUrl`, and the
nested `auth0` object. -/
def environmentExpr : Expr :=
  Expr.objE [
    ("production", Expr.lit (Value.bool false)),
    ("apiServerUrl", Expr.lit (Value.str "http://127.0.0.1:5000")),
    ("auth0", auth0Expr)
  ]

/-- The module's exported bindings: exactly the one binding
`environment` (the file's sole `export const`). -/
def moduleExports : List (String × Expr) := [("environment", environmentExpr)]

/-- The value the `auth0` literal evaluates to. -/
def auth0Value : Value :=
  Value.obj [
    ("url", Value.str "udacity2020.eu"),
    ("audience", Value.str "coffee_shop_api"),
    ("clientId", Value.str "XzfZoHMGLBsS6YoHQq9MJYu56QwhA49o"),
    ("callbackURL", Value.str "http://127.0.0.1:8100/callback")
  ]

/-- The value the `environment` literal evaluates to. -/
def environmentValue : Value :=
  Value.obj [
    ("production", Value.bool false),
    ("apiServerUrl", Value.str "http://127.0.0.1:5000"),
    ("auth0", auth0Value)
  ]

/-- In every context, the module's expression evaluates to
`environmentValue`. -/
theorem eval_environmentExpr (ctx : Ctx) :
    eval ctx environmentExpr = Except.ok environmentValue := rfl

/-- C1 fails as stated: besides the five items it enumerates (API base
URL, Auth0 domain, audience, client id, callback URL), the exported
object also contains a `production` flag, a kind of configuration the
enumeration omits.  This closed theorem exhibits that extra field. -/
theorem C1_counterexample :
    lookupField environmentValue "production" = some (Value.bool false) ∧
    "production" ∉ ["apiServerUrl", "url", "audience", "clientId", "callbackURL"] := by
  exact ⟨rfl, by decide⟩

/-- C1 (amended): the module exports exactly one configuration object,
and its content comprises a production flag, an API base URL, an Auth0
domain, an audience identifier, a client identifier, and a callback URL;
no other configuration is present. -/
theorem C1_single_export_content :
    moduleExports.length = 1 ∧
    moduleExports.map Prod.fst = ["environment"] ∧
    (leavesOf environmentValue).map Prod.fst =
      ["production", "apiServerUrl", "url", "audience", "clientId", "callbackURL"] := by
  exact ⟨rfl, rfl, rfl⟩

/-- C2 fails as stated: the exported object is not flat, because its
`auth0` field holds a nested object (not a scalar), and it has three
top-level fields, not six.  This closed theorem exhibits the nesting. -/
theorem C2_counterexample :
    (lookupField environmentValue "auth0").map Value.isScalar = some false ∧
    (topFields environmentValue).length = 3 := by
  exact ⟨rfl, rfl⟩

/-- C2 (amended): the exported environment is a single object with
exactly six scalar leaf fields, every one of them a string or a boolean;
they are organised as two top-level scalars (`production` and
`apiServerUrl`) plus a nested `auth0` object holding the remaining four
scalars. -/
theorem C2_six_scalar_leaves :
    (leavesOf environmentValue).length = 6 ∧
    (leavesOf environmentValue).all (fun kv => kv.2.isScalar) = true ∧
    (topFields environmentValue).map Prod.fst = ["production", "apiServerUrl", "auth0"] ∧
    (lookupField environmentValue "production").map Value.isScalar = some true ∧
    (lookupField environmentValue "apiServerUrl").map Value.isScalar = some true ∧
    lookupField environmentValue "auth0" = some auth0Value ∧
    (topFields auth0Value).length = 4 ∧
    (topFields auth0Value).all (fun kv => kv.2.isScalar) = true := by
  exact ⟨rfl, rfl, rfl, rfl, rfl, rfl, rfl, rfl⟩

/-- C3: the module is static data with no control flow, and its
evaluation is a constant: in every context it yields the same value,
`environmentValue`, so any two evaluations agree. -/
theorem C3_static_constant_evaluation :
    isStaticData environmentExpr = true ∧
    hasControlFlow environmentExpr = false ∧
    ∀ ctx ctx2 : Ctx,
      eval ctx environmentExpr = Except.ok environmentValue ∧
      eval ctx environmentExpr = eval ctx2 environmentExpr := by
  refine ⟨rfl, rfl, fun ctx ctx2 => ⟨eval_environmentExpr ctx, ?_⟩⟩
  exact (eval_environmentExpr ctx).trans (eval_environmentExpr ctx2).symm

/-- C4: evaluating the module cannot fail: the expression contains no
error branch (no `throw`), and in every context evaluation returns a
value, never an error. -/
theorem C4_evaluation_never_fails :
    usesThrow environmentExpr = false ∧
    ∀ ctx : Ctx,
      eval ctx environmentExpr = Except.ok environmentValue ∧
      ∀ m : String, eval ctx environmentExpr ≠ Except.error m := by
  refine ⟨rfl, fun ctx => ⟨eval_environmentExpr ctx, fun m h => ?_⟩⟩
  rw [eval_environmentExpr ctx] at h
  exact Except.noConfusion h

/-- C5: the module performs no failure handling: it contains no
`try`/`catch` (recovery) construct and no `throw`, so no retry,
recovery, or partial-failure semantics is expressed anywhere in it. -/
theorem C5_no_failure_handling :
    hasFailureHandling environmentExpr = false ∧
    usesThrow environmentExpr = false := by
  exact ⟨rfl, rfl⟩

/-- C6: the exported configuration sets the production flag to `false`:
`environment.production = false`. -/
theorem C6_production_is_false :
    lookupField environmentValue "production" = some (Value.bool false) := rfl

/-- C7: both URL-valued fields target the loopback host:
`apiServerUrl` is `http://127.0.0.1:5000` and `auth0.callbackURL` is
`http://127.0.0.1:8100/callback`, and both strings start with the
loopback base `http://127.0.0.1`. -/
theorem C7_loopback_urls :
    lookupField environmentValue "apiServerUrl" =
      some (Value.str "http://127.0.0.1:5000") ∧
    (lookupField environmentValue "auth0").bind (fun v => lookupField v "callbackURL") =
      some (Value.str "http://127.0.0.1:8100/callback") ∧
    List.isPrefixOf "http://127.0.0.1".data "http://127.0.0.1:5000".data = true ∧
    List.isPrefixOf "http://127.0.0.1".data "http://127.0.0.1:8100/callback".data = true := by
  refine ⟨rfl, rfl, by decide, by decide⟩

/-- C8: the exported environment has exactly five string-valued leaf
fields (`apiServerUrl`, `auth0.url`, `auth0.audience`, `auth0.clientId`,
`auth0.callbackURL`) and every one of them is a non-empty string. -/
theorem C8_string_fields_nonempty :
    ((leavesOf environmentValue).filter (fun kv => kv.2.isStr)).map Prod.fst =
      ["apiServerUrl", "url", "audience", "clientId", "callbackURL"] ∧
    (leavesOf environmentValue).all stringLeafNonEmpty = true := by
  exact ⟨rfl, rfl⟩

end CoffeeShopEnv
